import Mathlib

/-!
jack-balancer: MIDI controlled stereo balance and volume.

A shallow embedding of jack-balancer.cpp: the two startup loops of `main` that fill the
lookup tables `volumeFcts`, `balanceFctsL`, `balanceFctsR`, and the real-time callback
`process` (MIDI event loop, gain recompute, sample scaling).

Conventions of the embedding.

* Finite `double` and `float` arithmetic is exact, over an arbitrary linearly ordered
  field `α`; every definition is computable for a given `α` (it runs over `ℚ`). The one
  transcendental the program calls, `std::pow(10.0f, t)`, is the parameter `pow`;
  theorems about the volume curve instantiate `α` with `ℝ` and `pow` with real
  exponentiation. `std::pow(x, 2)` is the square `x ^ 2`.
* The table entries are finite (finite values divided by non-zero divisors), so the
  tables hold elements of `α`. The gain, the two factors and the audio samples are
  arbitrary `double` or `float` values: `Dbl α` adds the two infinities and NaN to `α`,
  and its product follows IEEE 754 on them (zero times infinity is NaN). `main` accepts
  an infinite gain: `-g inf` passes its test `castResult >= 0.0`.
* A `uint8_t` is a `Fin 256`. The `int` axis indices only ever hold their initialisers
  or a zero-extended byte, so they are natural numbers. The `unsigned short` settings
  are natural numbers.
* Behaviour the C++ standard leaves undefined is the result `none`: a table read outside
  the 128 entries, and a `memcpy` of more than 4096 bytes into the 4096-byte local
  `buffer`.
* The local `buffer` is not initialised, so the bytes of it that `memcpy` does not reach
  hold arbitrary values; they are the parameter `junk`, one content per loop iteration.
* `jack_midi_event_get` fails only for an index past the event count, which the loop
  never passes it, so `events` lists the events it returns, in order.
* Printing (`VERBLEVEL`) has no effect on the state and is left out.
-/

namespace JackBalancer

/-- The constant `CONTROLSTEPS`, defined as 128. -/
def CONTROLSTEPS : Nat := 128

/-- A `uint8_t`. -/
abbrev Byte : Type := Fin 256

/-- A `double` or `float` value: a finite value, an infinity, or NaN. -/
inductive Dbl (α : Type) where
  | fin (x : α) : Dbl α
  | posInf : Dbl α
  | negInf : Dbl α
  | nan : Dbl α
  deriving DecidableEq

section DblArith

variable {α : Type} [LinearOrderedField α]

/-- The infinity of the given sign. -/
def Dbl.signedInf (negative : Bool) : Dbl α := if negative then Dbl.negInf else Dbl.posInf

/-- The operator `*` on `double`: exact on finite values, IEEE 754 on infinities and NaN. -/
def Dbl.mul : Dbl α → Dbl α → Dbl α
  | Dbl.fin x, Dbl.fin y => Dbl.fin (x * y)
  | Dbl.fin x, Dbl.posInf => if x = 0 then Dbl.nan else Dbl.signedInf (decide (x < 0))
  | Dbl.fin x, Dbl.negInf => if x = 0 then Dbl.nan else Dbl.signedInf (decide (0 < x))
  | Dbl.posInf, Dbl.fin y => if y = 0 then Dbl.nan else Dbl.signedInf (decide (y < 0))
  | Dbl.negInf, Dbl.fin y => if y = 0 then Dbl.nan else Dbl.signedInf (decide (0 < y))
  | Dbl.posInf, Dbl.posInf => Dbl.posInf
  | Dbl.posInf, Dbl.negInf => Dbl.negInf
  | Dbl.negInf, Dbl.posInf => Dbl.negInf
  | Dbl.negInf, Dbl.negInf => Dbl.posInf
  | Dbl.nan, _ => Dbl.nan
  | _, Dbl.nan => Dbl.nan

instance : Mul (Dbl α) := ⟨Dbl.mul⟩

/-- The test `castResult >= 0.0` of `main` that guards the assignment to `GAIN`; it fails
for negative values and for NaN, and the program exits then. -/
def gainAccepted : Dbl α → Bool
  | Dbl.fin x => decide (0 ≤ x)
  | Dbl.posInf => true
  | Dbl.negInf => false
  | Dbl.nan => false

end DblArith

/-! Startup: the curve tables (`main`, the two `for` loops). -/

section Curves

variable {α : Type} [LinearOrderedField α]

/-- Body of the volume loop: the value stored in `volumeFcts[i]`. -/
def volumeFct (pow : α → α → α) (i : Nat) : α :=
  let balanceFactor : α := (i : α) / 127
  let val : α := (pow 10.0 balanceFactor - 1) / 9
  if val > 1.0 then 1.0 else val

/-- Local `balanceFactor` of the balance loop, from -1 (left) to 1 (right). -/
def balanceFactor (i : Nat) : α := 2.0 * ((i : α) / 127 - 0.5)

/-- Local `valLeftUnscaled` of the balance loop. -/
def valLeftUnscaled (i : Nat) : α :=
  -(balanceFactor i : α) * (balanceFactor i) ^ 2 / 2 + 0.5

/-- Local `valRightUnscaled` of the balance loop. -/
def valRightUnscaled (i : Nat) : α := 1.0 - valLeftUnscaled i

/-- Local `scalingFactor` of the balance loop. -/
def scalingFactor (i : Nat) : α :=
  if (balanceFactor i : α) ≥ 0.0 then 1.0 / valRightUnscaled i else 1.0 / valLeftUnscaled i

/-- Value stored in `balanceFctsL[i]`. -/
def balanceFctL (i : Nat) : α := scalingFactor i * valLeftUnscaled i

/-- Value stored in `balanceFctsR[i]`. -/
def balanceFctR (i : Nat) : α := scalingFactor i * valRightUnscaled i

/-- The table `volumeFcts` after the volume loop has run over `0 .. CONTROLSTEPS - 1`. -/
def volumeFcts (pow : α → α → α) : List α := (List.range CONTROLSTEPS).map (volumeFct pow)

/-- The table `balanceFctsL` after the balance loop. -/
def balanceFctsL : List α := (List.range CONTROLSTEPS).map balanceFctL

/-- The table `balanceFctsR` after the balance loop. -/
def balanceFctsR : List α := (List.range CONTROLSTEPS).map balanceFctR

end Curves

/-! Global state. -/

/-- The settings `main` reads from the command line before the callback is registered. -/
structure Config (α : Type) where
  CHANNEL : Nat
  VOLCONTROL : Nat
  BALCONTROL : Nat
  GAIN : Dbl α

/-- The three global lookup tables. -/
structure Tables (α : Type) where
  volumeFcts : List α
  balanceFctsL : List α
  balanceFctsR : List α

/-- The globals `process` reads and writes. -/
structure Engine (α : Type) where
  factorL : Dbl α
  factorR : Dbl α
  balanceStep : Nat
  volumeStep : Nat

section EventLoopDefs

variable {α : Type}

/-- Byte `k` of the local `buffer` after `memcpy(buffer, midiEvent.buffer, midiEvent.size)`:
the event's byte where the copy reached, the uninitialised content elsewhere. -/
def bufferByte (junk : Nat → Byte) (ev : List Byte) (k : Nat) : Nat :=
  match ev[k]? with
  | some b => b.val
  | none => (junk k).val

/-- One iteration of the MIDI loop of `process` on the pair of the globals and the
local flag `controlChange`. -/
def handleEvent (cfg : Config α) (junk : Nat → Byte) (ev : List Byte)
    (s : Engine α × Bool) : Option (Engine α × Bool) :=
  if 4096 < ev.length then none
  else
    let type := bufferByte junk ev 0 &&& 0xf0
    let channel := bufferByte junk ev 0 &&& 0xf
    if type = 0xb0 ∧ channel = cfg.CHANNEL then
      let controlNr := bufferByte junk ev 1
      let value := bufferByte junk ev 2
      if controlNr = cfg.VOLCONTROL then
        some ({ s.1 with volumeStep := value }, true)
      else if controlNr = cfg.BALCONTROL then
        some ({ s.1 with balanceStep := value }, true)
      else some s
    else some s

/-- The MIDI loop of `process`, from event number `i` on; `junk i` is the uninitialised
content of `buffer` in iteration `i`. -/
def midiLoop (cfg : Config α) (junk : Nat → Nat → Byte) :
    Nat → List (List Byte) → Engine α × Bool → Option (Engine α × Bool)
  | _, [], s => some s
  | i, ev :: rest, s =>
    match handleEvent cfg (junk i) ev s with
    | none => none
    | some s1 => midiLoop cfg junk (i + 1) rest s1

end EventLoopDefs

section Process

variable {α : Type} [LinearOrderedField α]

/-- The initialisers of `CHANNEL`, `VOLCONTROL`, `BALCONTROL` and `GAIN`. -/
def defaultConfig : Config α :=
  { CHANNEL := 0, VOLCONTROL := 7, BALCONTROL := 8, GAIN := Dbl.fin 1.0 }

/-- The tables as `main` leaves them. -/
def startupTables (pow : α → α → α) : Tables α :=
  { volumeFcts := volumeFcts pow, balanceFctsL := balanceFctsL, balanceFctsR := balanceFctsR }

/-- The initialisers of `factorL`, `factorR`, `balanceStep` and `volumeStep`. -/
def initialEngine : Engine α :=
  { factorL := Dbl.fin (-1.0), factorR := Dbl.fin (-1.0), balanceStep := CONTROLSTEPS / 2,
    volumeStep := CONTROLSTEPS }

/-- The assignments to `factorL` and `factorR` in `process`. -/
def recompute (cfg : Config α) (tbl : Tables α) (st : Engine α) : Option (Engine α) :=
  match tbl.volumeFcts[st.volumeStep]?, tbl.balanceFctsL[st.balanceStep]?,
      tbl.balanceFctsR[st.balanceStep]? with
  | some v, some l, some r =>
    some { st with
      factorL := Dbl.fin v * Dbl.fin l * cfg.GAIN, factorR := Dbl.fin v * Dbl.fin r * cfg.GAIN }
  | _, _, _ => none

/-- The callback `process`: the globals after the call and the two output buffers.
`events` is the content of the MIDI port buffer, `in1` and `in2` are the two input
buffers of `nframes` samples each. The test `factorL == -1.0` compares with a finite
constant, which no infinity and no NaN equals. -/
def process (cfg : Config α) (tbl : Tables α) (junk : Nat → Nat → Byte)
    (events : List (List Byte)) (in1 in2 : List (Dbl α)) (st : Engine α) :
    Option (Engine α × List (Dbl α) × List (Dbl α)) :=
  match midiLoop cfg junk 0 events (st, false) with
  | none => none
  | some (st1, controlChange) =>
    let st2 :=
      if controlChange = true ∨ st1.factorL = Dbl.fin (-1.0) then recompute cfg tbl st1
      else some st1
    match st2 with
    | none => none
    | some st2 => some (st2, in1.map (fun x => st2.factorL * x), in2.map (fun x => st2.factorR * x))

end Process

/-! Predicates on MIDI messages used to state the properties of `process`. -/

/-- A message the callback can decode safely: between 3 and 4096 bytes, with a value
byte (the third byte) in `0..127` as the MIDI wire format prescribes for data bytes. -/
def WellFormed (ev : List Byte) : Prop :=
  3 ≤ ev.length ∧ ev.length ≤ 4096 ∧ (ev.getD 2 0).val ≤ 127

instance (ev : List Byte) : Decidable (WellFormed ev) := by
  unfold WellFormed
  infer_instance

/-- A Control-Change on the listening channel that carries the volume or the balance
controller number, read off the first two bytes of the message. -/
def Recognised {α : Type} (cfg : Config α) (ev : List Byte) : Prop :=
  (ev.getD 0 0).val &&& 0xf0 = 0xb0 ∧ (ev.getD 0 0).val &&& 0xf = cfg.CHANNEL ∧
    ((ev.getD 1 0).val = cfg.VOLCONTROL ∨ (ev.getD 1 0).val = cfg.BALCONTROL)

instance {α : Type} (cfg : Config α) (ev : List Byte) : Decidable (Recognised cfg ev) := by
  unfold Recognised
  infer_instance

/-- A message the loop handles without leaving the tables: at most 4096 bytes, and either
at least 3 bytes with a value byte in `0..127`, or a status byte that is not a
Control-Change on the listening channel, or a controller byte that is neither the volume
nor the balance controller number. -/
def Tolerated {α : Type} (cfg : Config α) (ev : List Byte) : Prop :=
  ev.length ≤ 4096 ∧
    ((3 ≤ ev.length ∧ (ev.getD 2 0).val ≤ 127) ∨
      (1 ≤ ev.length ∧
        ¬ ((ev.getD 0 0).val &&& 0xf0 = 0xb0 ∧ (ev.getD 0 0).val &&& 0xf = cfg.CHANNEL)) ∨
      (2 ≤ ev.length ∧
        (ev.getD 1 0).val ≠ cfg.VOLCONTROL ∧ (ev.getD 1 0).val ≠ cfg.BALCONTROL))

instance {α : Type} (cfg : Config α) (ev : List Byte) : Decidable (Tolerated cfg ev) := by
  unfold Tolerated
  infer_instance

/-- The Derived Gain State agrees with the tables at the current axis values. -/
def FactorsMatch {α : Type} [LinearOrderedField α] (cfg : Config α) (tbl : Tables α)
    (st : Engine α) : Prop :=
  ∃ v l r : α, tbl.volumeFcts[st.volumeStep]? = some v ∧
    tbl.balanceFctsL[st.balanceStep]? = some l ∧ tbl.balanceFctsR[st.balanceStep]? = some r ∧
    st.factorL = Dbl.fin v * Dbl.fin l * cfg.GAIN ∧
    st.factorR = Dbl.fin v * Dbl.fin r * cfg.GAIN

section Lookup

variable {α : Type} [LinearOrderedField α]

theorem map_range_lookup {β : Type} (f : Nat → β) (n i : Nat) (h : i < n) :
    ((List.range n).map f)[i]? = some (f i) := by
  simp [List.getElem?_map, List.getElem?_range h]

theorem map_range_lookup_none {β : Type} (f : Nat → β) (n i : Nat) (h : n ≤ i) :
    ((List.range n).map f)[i]? = none := by
  simp [List.getElem?_eq_none_iff, h]

theorem volumeFcts_lookup (pow : α → α → α) (i : Nat) (h : i ≤ 127) :
    (volumeFcts pow)[i]? = some (volumeFct pow i) :=
  map_range_lookup _ _ _ (by simp only [CONTROLSTEPS]; omega)

theorem volumeFcts_lookup_none (pow : α → α → α) (i : Nat) (h : 128 ≤ i) :
    (volumeFcts pow)[i]? = none :=
  map_range_lookup_none _ _ _ (by simp only [CONTROLSTEPS]; omega)

theorem balanceFctsL_lookup (i : Nat) (h : i ≤ 127) :
    (balanceFctsL : List α)[i]? = some (balanceFctL i) :=
  map_range_lookup _ _ _ (by simp only [CONTROLSTEPS]; omega)

theorem balanceFctsR_lookup (i : Nat) (h : i ≤ 127) :
    (balanceFctsR : List α)[i]? = some (balanceFctR i) :=
  map_range_lookup _ _ _ (by simp only [CONTROLSTEPS]; omega)

theorem volumeFcts_lookup_lt (pow : α → α → α) (i : Nat) (v : α)
    (h : (volumeFcts pow)[i]? = some v) : i ≤ 127 := by
  by_contra hc
  rw [volumeFcts_lookup_none pow i (by omega)] at h
  exact Option.noConfusion h

end Lookup

section VolumeCurve

theorem volumeFct_real (i : Nat) :
    volumeFct (fun x y : ℝ => x ^ y) i = min (((10 : ℝ) ^ ((i : ℝ) / 127) - 1) / 9) 1 := by
  simp only [volumeFct]
  norm_num
  split_ifs with h
  · exact (min_eq_right (le_of_lt h)).symm
  · exact (min_eq_left (not_lt.mp h)).symm

theorem volumeFct_real_nonneg (i : Nat) : 0 ≤ volumeFct (fun x y : ℝ => x ^ y) i := by
  rw [volumeFct_real]
  have h1 : (1 : ℝ) ≤ (10 : ℝ) ^ ((i : ℝ) / 127) :=
    Real.one_le_rpow (by norm_num) (by positivity)
  exact le_min (by linarith) (by norm_num)

theorem volumeFct_real_le_one (i : Nat) : volumeFct (fun x y : ℝ => x ^ y) i ≤ 1 := by
  rw [volumeFct_real]
  exact min_le_right _ _

theorem volumeFct_real_mono (i j : Nat) (h : i ≤ j) :
    volumeFct (fun x y : ℝ => x ^ y) i ≤ volumeFct (fun x y : ℝ => x ^ y) j := by
  rw [volumeFct_real, volumeFct_real]
  have hexp : (i : ℝ) / 127 ≤ (j : ℝ) / 127 := by
    have : (i : ℝ) ≤ (j : ℝ) := by exact_mod_cast h
    linarith
  have hpow : (10 : ℝ) ^ ((i : ℝ) / 127) ≤ (10 : ℝ) ^ ((j : ℝ) / 127) :=
    Real.rpow_le_rpow_of_exponent_le (by norm_num) hexp
  exact min_le_min (by linarith) le_rfl

theorem volumeFct_real_zero : volumeFct (fun x y : ℝ => x ^ y) 0 = 0 := by
  rw [volumeFct_real]; norm_num

theorem volumeFct_real_top : volumeFct (fun x y : ℝ => x ^ y) 127 = 1 := by
  rw [volumeFct_real]; norm_num

/-- C1. Over the reals the volume table has 128 entries, entry `i` is
`min ((10^(i/127) - 1)/9) 1`, the first entry is 0, the last is 1, every entry lies in
`[0,1]`, and each entry is at most the next one. -/
theorem volumeFcts_curve :
    (volumeFcts (fun x y : ℝ => x ^ y)).length = 128 ∧
    (∀ i : Nat, i ≤ 127 → (volumeFcts (fun x y : ℝ => x ^ y))[i]? =
        some (min (((10 : ℝ) ^ ((i : ℝ) / 127) - 1) / 9) 1)) ∧
    (volumeFcts (fun x y : ℝ => x ^ y))[0]? = some 0 ∧
    (volumeFcts (fun x y : ℝ => x ^ y))[127]? = some 1 ∧
    (∀ (i : Nat) (v : ℝ), (volumeFcts (fun x y : ℝ => x ^ y))[i]? = some v → 0 ≤ v ∧ v ≤ 1) ∧
    (∀ (i : Nat) (v w : ℝ), i ≤ 126 → (volumeFcts (fun x y : ℝ => x ^ y))[i]? = some v →
        (volumeFcts (fun x y : ℝ => x ^ y))[i + 1]? = some w → v ≤ w) := by
  refine ⟨by simp [volumeFcts, CONTROLSTEPS], ?_, ?_, ?_, ?_, ?_⟩
  · intro i hi
    rw [volumeFcts_lookup _ i hi, volumeFct_real]
  · rw [volumeFcts_lookup _ 0 (by omega), volumeFct_real_zero]
  · rw [volumeFcts_lookup _ 127 (by omega), volumeFct_real_top]
  · intro i v h
    have hi := volumeFcts_lookup_lt _ i v h
    rw [volumeFcts_lookup _ i hi] at h
    cases h
    exact ⟨volumeFct_real_nonneg i, volumeFct_real_le_one i⟩
  · intro i v w hi hv hw
    rw [volumeFcts_lookup _ i (by omega)] at hv
    rw [volumeFcts_lookup _ (i + 1) (by omega)] at hw
    cases hv
    cases hw
    exact volumeFct_real_mono i (i + 1) (by omega)

end VolumeCurve

section BalanceCurve

variable {α : Type} [LinearOrderedField α]

theorem balanceFactor_eq (i : Nat) : (balanceFactor i : α) = (2 * (i : α) - 127) / 127 := by
  simp only [balanceFactor]
  norm_num
  ring

theorem balanceFactor_bounds (i : Nat) (hi : i ≤ 127) :
    (-1 : α) ≤ balanceFactor i ∧ (balanceFactor i : α) ≤ 1 := by
  have h0 : (0 : α) ≤ (i : α) := Nat.cast_nonneg i
  have h1 : (i : α) ≤ 127 := by exact_mod_cast hi
  rw [balanceFactor_eq]
  constructor
  · rw [le_div_iff₀ (by norm_num)]; linarith
  · rw [div_le_iff₀ (by norm_num)]; linarith

theorem valLeftUnscaled_eq (i : Nat) :
    (valLeftUnscaled i : α) = (1 - (balanceFactor i) ^ 3) / 2 := by
  simp only [valLeftUnscaled]
  norm_num
  ring

theorem valRightUnscaled_eq (i : Nat) :
    (valRightUnscaled i : α) = (1 + (balanceFactor i) ^ 3) / 2 := by
  simp only [valRightUnscaled, valLeftUnscaled_eq]
  norm_num
  ring

end BalanceCurve

section BalanceCurve2

variable {α : Type} [LinearOrderedField α]

theorem cube_bounds (b : α) (hl : -1 ≤ b) (hu : b ≤ 1) :
    -1 ≤ b ^ 3 ∧ b ^ 3 ≤ 1 ∧ (0 ≤ b → 0 ≤ b ^ 3) ∧ (b < 0 → b ^ 3 < 0) := by
  have hsq : (0 : α) ≤ b ^ 2 := sq_nonneg b
  have hsq1 : b ^ 2 ≤ 1 := by nlinarith
  refine ⟨by nlinarith, by nlinarith, fun h => by positivity, fun h => ?_⟩
  have hpos : 0 < b ^ 2 := by
    have : b ≠ 0 := ne_of_lt h
    positivity
  nlinarith

theorem balance_right_side (i : Nat) (hi : i ≤ 127) (hb : (0 : α) ≤ balanceFactor i) :
    (valRightUnscaled i : α) ≠ 0 ∧ (balanceFctR i : α) = 1 ∧
      (0 : α) ≤ balanceFctL i ∧ (balanceFctL i : α) ≤ 1 := by
  obtain ⟨hl, hu⟩ := @balanceFactor_bounds α _ i hi
  obtain ⟨_, hc1, hc0, _⟩ := cube_bounds (balanceFactor i : α) hl hu
  have hc := hc0 hb
  have hpos : (0 : α) < valRightUnscaled i := by
    rw [valRightUnscaled_eq]; linarith
  have hleft0 : (0 : α) ≤ valLeftUnscaled i := by
    rw [valLeftUnscaled_eq]; linarith
  have hle : (valLeftUnscaled i : α) ≤ valRightUnscaled i := by
    rw [valLeftUnscaled_eq, valRightUnscaled_eq]; linarith
  have hs : (scalingFactor i : α) = 1 / valRightUnscaled i := by
    simp only [scalingFactor]
    rw [if_pos (by norm_num; exact hb)]
    norm_num
  refine ⟨ne_of_gt hpos, ?_, ?_, ?_⟩
  · rw [balanceFctR, hs]; field_simp
  · rw [balanceFctL, hs]; positivity
  · rw [balanceFctL, hs, one_div, inv_mul_le_iff₀ hpos]; linarith

theorem balance_left_side (i : Nat) (hi : i ≤ 127) (hb : (balanceFactor i : α) < 0) :
    (valLeftUnscaled i : α) ≠ 0 ∧ (balanceFctL i : α) = 1 ∧
      (0 : α) ≤ balanceFctR i ∧ (balanceFctR i : α) ≤ 1 := by
  obtain ⟨hl, hu⟩ := @balanceFactor_bounds α _ i hi
  obtain ⟨hcl, _, _, hcn⟩ := cube_bounds (balanceFactor i : α) hl hu
  have hc := hcn hb
  have hpos : (0 : α) < valLeftUnscaled i := by
    rw [valLeftUnscaled_eq]; linarith
  have hright0 : (0 : α) ≤ valRightUnscaled i := by
    rw [valRightUnscaled_eq]; linarith
  have hle : (valRightUnscaled i : α) ≤ valLeftUnscaled i := by
    rw [valLeftUnscaled_eq, valRightUnscaled_eq]; linarith
  have hs : (scalingFactor i : α) = 1 / valLeftUnscaled i := by
    simp only [scalingFactor]
    rw [if_neg (by norm_num; exact hb)]
    norm_num
  refine ⟨ne_of_gt hpos, ?_, ?_, ?_⟩
  · rw [balanceFctL, hs]; field_simp
  · rw [balanceFctR, hs]; positivity
  · rw [balanceFctR, hs, one_div, inv_mul_le_iff₀ hpos]; linarith

/-- C2. For every index `i` in `0..127`, over any ordered field: the divisor of the
scaling step (`valRightUnscaled` when `balanceFactor >= 0`, `valLeftUnscaled` otherwise)
is not zero, the larger of `balanceFctsL[i]` and `balanceFctsR[i]` is exactly 1, and
both entries lie in `[0,1]`. -/
theorem balance_louder_side_unity {α : Type} [LinearOrderedField α] (i : Nat) (hi : i ≤ 127) :
    ((0 : α) ≤ balanceFactor i → (valRightUnscaled i : α) ≠ 0) ∧
    ((balanceFactor i : α) < 0 → (valLeftUnscaled i : α) ≠ 0) ∧
    ∃ l r : α, balanceFctsL[i]? = some l ∧ balanceFctsR[i]? = some r ∧
      max l r = 1 ∧ 0 ≤ l ∧ l ≤ 1 ∧ 0 ≤ r ∧ r ≤ 1 := by
  refine ⟨fun hb => (balance_right_side i hi hb).1, fun hb => (balance_left_side i hi hb).1,
    balanceFctL i, balanceFctR i, balanceFctsL_lookup i hi, balanceFctsR_lookup i hi, ?_⟩
  rcases le_or_lt (0 : α) (balanceFactor i) with hb | hb
  · obtain ⟨_, hr, hl0, hl1⟩ := balance_right_side i hi hb
    rw [hr]
    exact ⟨max_eq_right hl1, hl0, hl1, zero_le_one, le_rfl⟩
  · obtain ⟨_, hl, hr0, hr1⟩ := balance_left_side i hi hb
    rw [hl]
    exact ⟨max_eq_left hr1, zero_le_one, le_rfl, hr0, hr1⟩

/-- Witness for C2 at index 64 over the rationals. -/
theorem balance_louder_side_unity_witness :
    (64 : Nat) ≤ 127 ∧
    (((0 : ℚ) ≤ balanceFactor 64 → (valRightUnscaled 64 : ℚ) ≠ 0) ∧
    ((balanceFactor 64 : ℚ) < 0 → (valLeftUnscaled 64 : ℚ) ≠ 0) ∧
    ∃ l r : ℚ, balanceFctsL[64]? = some l ∧ balanceFctsR[64]? = some r ∧
      max l r = 1 ∧ 0 ≤ l ∧ l ≤ 1 ∧ 0 ≤ r ∧ r ≤ 1) :=
  ⟨by decide, balance_louder_side_unity 64 (by decide)⟩

theorem balanceFctL_centre : (balanceFctL 64 : α) = 1024191 / 1024192 := by
  norm_num [balanceFctL, scalingFactor, valLeftUnscaled, valRightUnscaled, balanceFactor]

theorem balanceFctR_centre : (balanceFctR 64 : α) = 1 := by
  norm_num [balanceFctR, scalingFactor, valLeftUnscaled, valRightUnscaled, balanceFactor]

theorem balanceFctL_zero : (balanceFctL 0 : α) = 1 := by
  norm_num [balanceFctL, scalingFactor, valLeftUnscaled, valRightUnscaled, balanceFactor]

theorem balanceFctR_zero : (balanceFctR 0 : α) = 0 := by
  norm_num [balanceFctR, scalingFactor, valLeftUnscaled, valRightUnscaled, balanceFactor]

end BalanceCurve2

/-- C3, as stated, fails: over the reals the left entry at index 64 is not 1. -/
theorem balance_centre_not_both_unity :
    ¬ ((balanceFctsL : List ℝ)[64]? = some 1 ∧ (balanceFctsR : List ℝ)[64]? = some 1) := by
  rintro ⟨h, _⟩
  rw [balanceFctsL_lookup 64 (by omega), balanceFctL_centre] at h
  have h1 := Option.some.inj h
  norm_num at h1

/-- C3, amended. At index 64 `balanceFactor` is `1/127`, not 0: the right entry is
exactly 1 and the left entry is `1024191/1024192`. -/
theorem balance_centre_values {α : Type} [LinearOrderedField α] :
    (balanceFactor 64 : α) = 1 / 127 ∧
    (balanceFctsL : List α)[64]? = some (1024191 / 1024192) ∧
    (balanceFctsR : List α)[64]? = some 1 := by
  refine ⟨by norm_num [balanceFactor], ?_, ?_⟩
  · rw [balanceFctsL_lookup 64 (by omega), balanceFctL_centre]
  · rw [balanceFctsR_lookup 64 (by omega), balanceFctR_centre]

section EventLoop

variable {α : Type}

theorem bufferByte_of_lt (junk : Nat → Byte) (ev : List Byte) (k : Nat) (h : k < ev.length) :
    bufferByte junk ev k = (ev.getD k 0).val := by
  simp [bufferByte, List.getD, List.getElem?_eq_getElem h]

theorem bufferByte_of_lookup (junk : Nat → Byte) (ev : List Byte) (k : Nat) (b : Byte)
    (h : ev[k]? = some b) : bufferByte junk ev k = b.val := by
  simp [bufferByte, h]

theorem bufferByte_of_le (junk : Nat → Byte) (ev : List Byte) (k : Nat) (h : ev.length ≤ k) :
    bufferByte junk ev k = (junk k).val := by
  simp [bufferByte, List.getElem?_eq_none_iff.mpr h]

theorem handleEvent_oversized (cfg : Config α) (junk : Nat → Byte) (ev : List Byte)
    (s : Engine α × Bool) (h : 4096 < ev.length) : handleEvent cfg junk ev s = none := by
  simp [handleEvent, h]

theorem handleEvent_volume (cfg : Config α) (junk : Nat → Byte) (ev : List Byte)
    (s : Engine α × Bool) (hlen : ev.length ≤ 4096)
    (ht : bufferByte junk ev 0 &&& 0xf0 = 0xb0) (hc : bufferByte junk ev 0 &&& 0xf = cfg.CHANNEL)
    (hn : bufferByte junk ev 1 = cfg.VOLCONTROL) :
    handleEvent cfg junk ev s =
      some ({ s.1 with volumeStep := bufferByte junk ev 2 }, true) := by
  simp [handleEvent, Nat.not_lt.mpr hlen, ht, hc, hn]

theorem handleEvent_balance (cfg : Config α) (junk : Nat → Byte) (ev : List Byte)
    (s : Engine α × Bool) (hlen : ev.length ≤ 4096)
    (ht : bufferByte junk ev 0 &&& 0xf0 = 0xb0) (hc : bufferByte junk ev 0 &&& 0xf = cfg.CHANNEL)
    (hv : bufferByte junk ev 1 ≠ cfg.VOLCONTROL) (hn : bufferByte junk ev 1 = cfg.BALCONTROL) :
    handleEvent cfg junk ev s =
      some ({ s.1 with balanceStep := bufferByte junk ev 2 }, true) := by
  have hv2 : ¬ cfg.BALCONTROL = cfg.VOLCONTROL := fun h => hv (hn.trans h)
  simp [handleEvent, Nat.not_lt.mpr hlen, ht, hc, hn, hv2]

theorem handleEvent_ignored (cfg : Config α) (junk : Nat → Byte) (ev : List Byte)
    (s : Engine α × Bool) (hlen : ev.length ≤ 4096)
    (h : ¬ (bufferByte junk ev 0 &&& 0xf0 = 0xb0 ∧ bufferByte junk ev 0 &&& 0xf = cfg.CHANNEL ∧
      (bufferByte junk ev 1 = cfg.VOLCONTROL ∨ bufferByte junk ev 1 = cfg.BALCONTROL))) :
    handleEvent cfg junk ev s = some s := by
  simp only [handleEvent, if_neg (Nat.not_lt.mpr hlen)]
  split_ifs with h1 h2 h3
  · exact absurd ⟨h1.1, h1.2, Or.inl h2⟩ h
  · exact absurd ⟨h1.1, h1.2, Or.inr h3⟩ h
  · rfl
  · rfl

/-- What one well-formed message does: the call succeeds, the indices stay below 128,
the factors are untouched, the flag is never cleared, and an unrecognised message
changes nothing. -/
theorem handleEvent_wellFormed (cfg : Config α) (junk : Nat → Byte) (ev : List Byte)
    (s : Engine α × Bool) (hw : WellFormed ev)
    (hv : s.1.volumeStep ≤ 127) (hb : s.1.balanceStep ≤ 127) :
    ∃ s1, handleEvent cfg junk ev s = some s1 ∧ s1.1.volumeStep ≤ 127 ∧
      s1.1.balanceStep ≤ 127 ∧ s1.1.factorL = s.1.factorL ∧ s1.1.factorR = s.1.factorR ∧
      (¬ Recognised cfg ev → s1 = s) ∧ (Recognised cfg ev → s1.2 = true) ∧
      (s.2 = true → s1.2 = true) := by
  obtain ⟨h3, h4096, hval⟩ := hw
  have e0 := bufferByte_of_lt junk ev 0 (by omega)
  have e1 := bufferByte_of_lt junk ev 1 (by omega)
  have e2 := bufferByte_of_lt junk ev 2 (by omega)
  by_cases hrec : Recognised cfg ev
  · obtain ⟨ht, hc, hn⟩ := hrec
    by_cases hvol : (ev.getD 1 0).val = cfg.VOLCONTROL
    · refine ⟨_, handleEvent_volume cfg junk ev s h4096 (by rw [e0]; exact ht)
        (by rw [e0]; exact hc) (by rw [e1]; exact hvol), ?_, hb, rfl, rfl, ?_, fun _ => rfl,
        fun _ => rfl⟩
      · show bufferByte junk ev 2 ≤ 127
        rw [e2]; exact hval
      · intro hnot; exact absurd ⟨ht, hc, hn⟩ hnot
    · have hbal : (ev.getD 1 0).val = cfg.BALCONTROL := hn.resolve_left hvol
      refine ⟨_, handleEvent_balance cfg junk ev s h4096 (by rw [e0]; exact ht)
        (by rw [e0]; exact hc) (by rw [e1]; exact hvol) (by rw [e1]; exact hbal),
        hv, ?_, rfl, rfl, ?_, fun _ => rfl, fun _ => rfl⟩
      · show bufferByte junk ev 2 ≤ 127
        rw [e2]; exact hval
      · intro hnot; exact absurd ⟨ht, hc, hn⟩ hnot
  · refine ⟨s, handleEvent_ignored cfg junk ev s h4096 ?_, hv, hb, rfl, rfl, fun _ => rfl,
      fun h => absurd h hrec, fun h => h⟩
    rw [e0, e1]
    exact hrec

/-- The MIDI loop over well-formed messages. -/
theorem midiLoop_wellFormed (cfg : Config α) (junk : Nat → Nat → Byte)
    (events : List (List Byte)) :
    ∀ (i : Nat) (s : Engine α × Bool), (∀ ev ∈ events, WellFormed ev) →
      s.1.volumeStep ≤ 127 → s.1.balanceStep ≤ 127 →
      ∃ s1, midiLoop cfg junk i events s = some s1 ∧ s1.1.volumeStep ≤ 127 ∧
        s1.1.balanceStep ≤ 127 ∧ s1.1.factorL = s.1.factorL ∧ s1.1.factorR = s.1.factorR ∧
        ((∀ ev ∈ events, ¬ Recognised cfg ev) → s1 = s) ∧
        (s.2 = true → s1.2 = true) ∧ (s1.2 = false → s1 = s) := by
  induction events with
  | nil =>
    intro i s _ hv hb
    exact ⟨s, rfl, hv, hb, rfl, rfl, fun _ => rfl, fun h => h, fun _ => rfl⟩
  | cons ev rest ih =>
    intro i s hw hv hb
    obtain ⟨s1, h1, hv1, hb1, hl1, hr1, hn1, hrec1, hmono1⟩ :=
      handleEvent_wellFormed cfg (junk i) ev s (hw ev (List.mem_cons_self _ _)) hv hb
    obtain ⟨s2, h2, hv2, hb2, hl2, hr2, hn2, hmono2, hclear2⟩ :=
      ih (i + 1) s1 (fun e he => hw e (List.mem_cons_of_mem _ he)) hv1 hb1
    refine ⟨s2, ?_, hv2, hb2, hl2.trans hl1, hr2.trans hr1, ?_, fun h => hmono2 (hmono1 h), ?_⟩
    · simp only [midiLoop, h1]
      exact h2
    · intro hnone
      have e1 : s1 = s := hn1 (hnone ev (List.mem_cons_self _ _))
      have e2 : s2 = s1 := hn2 (fun e he => hnone e (List.mem_cons_of_mem _ he))
      rw [e2, e1]
    · intro hclear
      have e2 : s2 = s1 := hclear2 hclear
      have hclear1 : s1.2 = false := by rw [← e2]; exact hclear
      have hnrec : ¬ Recognised cfg ev := fun h => by
        have := hrec1 h
        rw [hclear1] at this
        exact Bool.noConfusion this
      rw [e2]
      exact hn1 hnrec

/-- One tolerated message: the call succeeds and the indices stay below 128. -/
theorem handleEvent_tolerated (cfg : Config α) (junk : Nat → Byte) (ev : List Byte)
    (s : Engine α × Bool) (ht : Tolerated cfg ev)
    (hv : s.1.volumeStep ≤ 127) (hb : s.1.balanceStep ≤ 127) :
    ∃ s1, handleEvent cfg junk ev s = some s1 ∧ s1.1.volumeStep ≤ 127 ∧
      s1.1.balanceStep ≤ 127 := by
  obtain ⟨hlen, hcase | hcase | hcase⟩ := ht
  · obtain ⟨s1, h1, hv1, hb1, _⟩ :=
      handleEvent_wellFormed cfg junk ev s ⟨hcase.1, hlen, hcase.2⟩ hv hb
    exact ⟨s1, h1, hv1, hb1⟩
  · refine ⟨s, handleEvent_ignored cfg junk ev s hlen ?_, hv, hb⟩
    rw [bufferByte_of_lt junk ev 0 (by omega)]
    exact fun h => hcase.2 ⟨h.1, h.2.1⟩
  · refine ⟨s, handleEvent_ignored cfg junk ev s hlen ?_, hv, hb⟩
    rw [bufferByte_of_lt junk ev 1 (by omega)]
    rintro ⟨_, _, h | h⟩
    · exact hcase.2.1 h
    · exact hcase.2.2 h

/-- The MIDI loop over tolerated messages. -/
theorem midiLoop_tolerated (cfg : Config α) (junk : Nat → Nat → Byte)
    (events : List (List Byte)) :
    ∀ (i : Nat) (s : Engine α × Bool), (∀ ev ∈ events, Tolerated cfg ev) →
      s.1.volumeStep ≤ 127 → s.1.balanceStep ≤ 127 →
      ∃ s1, midiLoop cfg junk i events s = some s1 ∧ s1.1.volumeStep ≤ 127 ∧
        s1.1.balanceStep ≤ 127 := by
  induction events with
  | nil =>
    intro i s _ hv hb
    exact ⟨s, rfl, hv, hb⟩
  | cons ev rest ih =>
    intro i s ht hv hb
    obtain ⟨s1, h1, hv1, hb1⟩ :=
      handleEvent_tolerated cfg (junk i) ev s (ht ev (List.mem_cons_self _ _)) hv hb
    obtain ⟨s2, h2, hv2, hb2⟩ :=
      ih (i + 1) s1 (fun e he => ht e (List.mem_cons_of_mem _ he)) hv1 hb1
    refine ⟨s2, ?_, hv2, hb2⟩
    simp only [midiLoop, h1]
    exact h2

theorem midiLoop_single (cfg : Config α) (junk : Nat → Nat → Byte) (ev : List Byte)
    (s s1 : Engine α × Bool) (h : handleEvent cfg (junk 0) ev s = some s1) :
    midiLoop cfg junk 0 [ev] s = some s1 := by
  simp [midiLoop, h]

end EventLoop

section DblLemmas

variable {α : Type} [LinearOrderedField α]

theorem Dbl.fin_mul_fin (x y : α) : (Dbl.fin x * Dbl.fin y : Dbl α) = Dbl.fin (x * y) := rfl

theorem Dbl.zero_mul_posInf : (Dbl.fin 0 * Dbl.posInf : Dbl α) = Dbl.nan := by
  show Dbl.mul (Dbl.fin 0) Dbl.posInf = Dbl.nan
  simp [Dbl.mul]

theorem Dbl.pos_mul_posInf (x : α) (h : 0 < x) : (Dbl.fin x * Dbl.posInf : Dbl α) = Dbl.posInf := by
  show Dbl.mul (Dbl.fin x) Dbl.posInf = Dbl.posInf
  simp [Dbl.mul, Dbl.signedInf, ne_of_gt h, not_lt.mpr (le_of_lt h)]

theorem Dbl.one_mul (x : Dbl α) : Dbl.fin 1 * x = x := by
  show Dbl.mul (Dbl.fin 1) x = x
  cases x <;> simp [Dbl.mul, Dbl.signedInf]

theorem Dbl.map_one_mul (xs : List (Dbl α)) : xs.map (fun x => Dbl.fin 1 * x) = xs := by
  simp [Dbl.one_mul]

end DblLemmas

section Recompute

variable {α : Type} [LinearOrderedField α]

theorem recompute_startup (cfg : Config α) (pow : α → α → α) (st : Engine α)
    (hv : st.volumeStep ≤ 127) (hb : st.balanceStep ≤ 127) :
    recompute cfg (startupTables pow) st =
      some { st with
        factorL :=
          Dbl.fin (volumeFct pow st.volumeStep) * Dbl.fin (balanceFctL st.balanceStep) * cfg.GAIN,
        factorR :=
          Dbl.fin (volumeFct pow st.volumeStep) * Dbl.fin (balanceFctR st.balanceStep) *
            cfg.GAIN } := by
  simp only [recompute, startupTables, volumeFcts_lookup pow _ hv, balanceFctsL_lookup _ hb,
    balanceFctsR_lookup _ hb]

theorem recompute_volume_out_of_range (cfg : Config α) (pow : α → α → α) (st : Engine α)
    (hv : 128 ≤ st.volumeStep) : recompute cfg (startupTables pow) st = none := by
  simp only [recompute, startupTables, volumeFcts_lookup_none pow _ hv]

theorem process_recomputed (cfg : Config α) (tbl : Tables α) (junk : Nat → Nat → Byte)
    (events : List (List Byte)) (in1 in2 : List (Dbl α)) (st st1 : Engine α) (flag : Bool)
    (hloop : midiLoop cfg junk 0 events (st, false) = some (st1, flag))
    (hcond : flag = true ∨ st1.factorL = Dbl.fin (-1.0)) :
    process cfg tbl junk events in1 in2 st =
      (recompute cfg tbl st1).map
        (fun st2 => (st2, in1.map (fun x => st2.factorL * x), in2.map (fun x => st2.factorR * x))) := by
  simp only [process, hloop, if_pos hcond]
  cases recompute cfg tbl st1 <;> rfl

theorem process_reused (cfg : Config α) (tbl : Tables α) (junk : Nat → Nat → Byte)
    (events : List (List Byte)) (in1 in2 : List (Dbl α)) (st st1 : Engine α) (flag : Bool)
    (hloop : midiLoop cfg junk 0 events (st, false) = some (st1, flag))
    (hcond : ¬ (flag = true ∨ st1.factorL = Dbl.fin (-1.0))) :
    process cfg tbl junk events in1 in2 st =
      some (st1, in1.map (fun x => st1.factorL * x), in2.map (fun x => st1.factorR * x)) := by
  simp only [process, hloop, if_neg hcond]

end Recompute

section Claims

variable {α : Type} [LinearOrderedField α]

/-- Shared core of the safety and freshness properties: on well-formed messages and
in-range indices `process` returns, keeps the indices in range and leaves factors that
match the tables; without a recognised message and away from the sentinel nothing
changes. -/
theorem process_wellFormed (cfg : Config α) (pow : α → α → α) (junk : Nat → Nat → Byte)
    (events : List (List Byte)) (in1 in2 : List (Dbl α)) (st : Engine α)
    (hv : st.volumeStep ≤ 127) (hb : st.balanceStep ≤ 127)
    (hev : ∀ ev ∈ events, WellFormed ev) :
    ∃ st1 : Engine α,
      process cfg (startupTables pow) junk events in1 in2 st =
        some (st1, in1.map (fun x => st1.factorL * x), in2.map (fun x => st1.factorR * x)) ∧
      st1.volumeStep ≤ 127 ∧ st1.balanceStep ≤ 127 ∧
      ((st.factorL = Dbl.fin (-1.0) ∨ FactorsMatch cfg (startupTables pow) st) →
        FactorsMatch cfg (startupTables pow) st1) ∧
      ((∀ ev ∈ events, ¬ Recognised cfg ev) → st.factorL ≠ Dbl.fin (-1.0) → st1 = st) := by
  obtain ⟨⟨st1, flag⟩, hloop, hv1, hb1, hl1, hr1, hsame, _, hclear⟩ :=
    midiLoop_wellFormed cfg junk events 0 (st, false) hev hv hb
  simp only at hv1 hb1 hl1 hr1
  by_cases hcond : flag = true ∨ st1.factorL = Dbl.fin (-1.0)
  · refine ⟨{ st1 with
        factorL :=
          Dbl.fin (volumeFct pow st1.volumeStep) * Dbl.fin (balanceFctL st1.balanceStep) *
            cfg.GAIN,
        factorR :=
          Dbl.fin (volumeFct pow st1.volumeStep) * Dbl.fin (balanceFctR st1.balanceStep) *
            cfg.GAIN },
      ?_, ?_, ?_, ?_, ?_⟩
    · rw [process_recomputed cfg _ junk events in1 in2 st st1 flag hloop hcond,
        recompute_startup cfg pow st1 hv1 hb1]
      rfl
    · exact hv1
    · exact hb1
    · intro _
      exact ⟨_, _, _, volumeFcts_lookup pow _ hv1, balanceFctsL_lookup _ hb1,
        balanceFctsR_lookup _ hb1, rfl, rfl⟩
    · intro hnone hsent
      have e := hsame hnone
      have e1 : st1 = st := congrArg Prod.fst e
      have e2 : flag = false := congrArg Prod.snd e
      subst e1
      subst e2
      rcases hcond with h | h
      · exact absurd h (by decide)
      · exact absurd h hsent
  · refine ⟨st1, process_reused cfg _ junk events in1 in2 st st1 flag hloop hcond, hv1, hb1,
      ?_, ?_⟩
    · intro hst
      have hflag : flag = false := by
        cases flag
        · rfl
        · exact absurd (Or.inl rfl) hcond
      have hns : st.factorL ≠ Dbl.fin (-1.0) := fun h => hcond (Or.inr (hl1.trans h))
      have hm : FactorsMatch cfg (startupTables pow) st := hst.resolve_left hns
      have e : st1 = st := congrArg Prod.fst (hclear hflag)
      rw [e]
      exact hm
    · intro hnone _
      exact congrArg Prod.fst (hsame hnone)

end Claims

section Claims2

variable {α : Type} [LinearOrderedField α]

theorem bufferByte_three (junk : Nat → Byte) (a b c : Byte) :
    bufferByte junk [a, b, c] 0 = a.val ∧ bufferByte junk [a, b, c] 1 = b.val ∧
      bufferByte junk [a, b, c] 2 = c.val := by
  simp [bufferByte]

theorem process_out_of_table (cfg : Config α) (pow : α → α → α) (junk : Nat → Nat → Byte)
    (events : List (List Byte)) (in1 in2 : List (Dbl α)) (st st1 : Engine α) (flag : Bool)
    (hloop : midiLoop cfg junk 0 events (st, false) = some (st1, flag))
    (hcond : flag = true ∨ st1.factorL = Dbl.fin (-1.0)) (hv : 128 ≤ st1.volumeStep) :
    process cfg (startupTables pow) junk events in1 in2 st = none := by
  rw [process_recomputed cfg _ junk events in1 in2 st st1 flag hloop hcond,
    recompute_volume_out_of_range cfg pow st1 hv]
  rfl

theorem process_in_table (cfg : Config α) (pow : α → α → α) (junk : Nat → Nat → Byte)
    (events : List (List Byte)) (in1 in2 : List (Dbl α)) (st st1 : Engine α) (flag : Bool)
    (hloop : midiLoop cfg junk 0 events (st, false) = some (st1, flag))
    (hcond : flag = true ∨ st1.factorL = Dbl.fin (-1.0))
    (hv : st1.volumeStep ≤ 127) (hb : st1.balanceStep ≤ 127) :
    process cfg (startupTables pow) junk events in1 in2 st =
      some ({ st1 with
          factorL :=
            Dbl.fin (volumeFct pow st1.volumeStep) * Dbl.fin (balanceFctL st1.balanceStep) *
              cfg.GAIN,
          factorR :=
            Dbl.fin (volumeFct pow st1.volumeStep) * Dbl.fin (balanceFctR st1.balanceStep) *
              cfg.GAIN },
        in1.map (fun x =>
          Dbl.fin (volumeFct pow st1.volumeStep) * Dbl.fin (balanceFctL st1.balanceStep) *
            cfg.GAIN * x),
        in2.map (fun x =>
          Dbl.fin (volumeFct pow st1.volumeStep) * Dbl.fin (balanceFctR st1.balanceStep) *
            cfg.GAIN * x)) := by
  rw [process_recomputed cfg _ junk events in1 in2 st st1 flag hloop hcond,
    recompute_startup cfg pow st1 hv hb]
  rfl

/-- C4. The initialiser of `volumeStep` is `CONTROLSTEPS`, that is 128 and not 127: the
first call of `process`, made before any MIDI message, reads `volumeFcts[128]`, one past
the end of the 128-entry table, while `balanceStep` starts at 64. -/
theorem initial_volume_index_past_table (cfg : Config α) (pow : α → α → α)
    (junk : Nat → Nat → Byte) (in1 in2 : List (Dbl α)) :
    (initialEngine : Engine α).volumeStep = 128 ∧ (initialEngine : Engine α).balanceStep = 64 ∧
    (volumeFcts pow).length = 128 ∧ (volumeFcts pow)[128]? = none ∧
    process cfg (startupTables pow) junk [] in1 in2 initialEngine = none := by
  refine ⟨rfl, rfl, by simp [volumeFcts, CONTROLSTEPS], volumeFcts_lookup_none pow 128 le_rfl, ?_⟩
  exact process_out_of_table cfg pow junk [] in1 in2 initialEngine initialEngine false rfl
    (Or.inr rfl) (by simp [initialEngine, CONTROLSTEPS])

/-- C5, as stated, fails: a message is an arbitrary byte sequence, and the Control-Change
`B0 07 C8` stores its value byte 200 in `volumeStep`; the recompute that follows reads
`volumeFcts[200]`, outside the table. -/
theorem value_byte_above_127_leaves_table :
    midiLoop (defaultConfig : Config ℝ) (fun _ _ => 0) 0 [[0xB0, 7, 200]]
        (
            { factorL := Dbl.fin 1, factorR := Dbl.fin 1,
              balanceStep := 64, volumeStep := 127 }, false) =
      some (
          { factorL := Dbl.fin 1, factorR := Dbl.fin 1,
            balanceStep := 64, volumeStep := 200 }, true) ∧
    process (defaultConfig : Config ℝ) (startupTables (fun x y : ℝ => x ^ y)) (fun _ _ => 0)
        [[0xB0, 7, 200]] [] []
        { factorL := Dbl.fin 1, factorR := Dbl.fin 1,
          balanceStep := 64, volumeStep := 127 } = none := by
  have hloop : midiLoop (defaultConfig : Config ℝ) (fun _ _ => 0) 0 [[0xB0, 7, 200]]
        (
            { factorL := Dbl.fin 1, factorR := Dbl.fin 1,
              balanceStep := 64, volumeStep := 127 }, false) =
      some (
          { factorL := Dbl.fin 1, factorR := Dbl.fin 1,
            balanceStep := 64, volumeStep := 200 }, true) :=
    midiLoop_single _ _ _ _ _
      (handleEvent_volume _ _ _ _ (by decide) (by decide) (by decide) (by decide))
  exact ⟨hloop, process_out_of_table _ _ _ _ _ _ _ _ _ hloop (Or.inl rfl) (by decide)⟩

/-- C5, amended. From axis values in `0..127`, a block in which every message has at most
4096 bytes and either has at least 3 bytes with a value byte in `0..127`, or has a status
byte that is not a Control-Change on the listening channel, or has a controller byte that
is neither controller number, makes `process` return with both axis values still in
`0..127`, so that the three table reads are inside the tables. -/
theorem axis_values_stay_in_table (cfg : Config α) (pow : α → α → α)
    (junk : Nat → Nat → Byte) (events : List (List Byte)) (in1 in2 : List (Dbl α)) (st : Engine α)
    (hv : st.volumeStep ≤ 127) (hb : st.balanceStep ≤ 127)
    (hev : ∀ ev ∈ events, Tolerated cfg ev) :
    ∃ (st1 : Engine α) (out1 out2 : List (Dbl α)),
      process cfg (startupTables pow) junk events in1 in2 st = some (st1, out1, out2) ∧
      st1.volumeStep ≤ 127 ∧ st1.balanceStep ≤ 127 ∧
      ((startupTables pow).volumeFcts[st1.volumeStep]?).isSome = true ∧
      ((startupTables pow).balanceFctsL[st1.balanceStep]?).isSome = true ∧
      ((startupTables pow).balanceFctsR[st1.balanceStep]?).isSome = true := by
  obtain ⟨⟨st1, flag⟩, hloop, hv1, hb1⟩ :=
    midiLoop_tolerated cfg junk events 0 (st, false) hev hv hb
  simp only at hv1 hb1
  have hlook : ∀ st2 : Engine α, st2.volumeStep ≤ 127 → st2.balanceStep ≤ 127 →
      ((startupTables pow).volumeFcts[st2.volumeStep]?).isSome = true ∧
      ((startupTables pow).balanceFctsL[st2.balanceStep]?).isSome = true ∧
      ((startupTables pow).balanceFctsR[st2.balanceStep]?).isSome = true := by
    intro st2 h1 h2
    simp only [startupTables, volumeFcts_lookup pow _ h1, balanceFctsL_lookup _ h2,
      balanceFctsR_lookup _ h2, Option.isSome_some, and_self]
  by_cases hcond : flag = true ∨ st1.factorL = Dbl.fin (-1.0)
  · exact ⟨_, _, _, process_in_table cfg pow junk events in1 in2 st st1 flag hloop hcond hv1 hb1,
      hv1, hb1, hlook _ hv1 hb1⟩
  · exact ⟨_, _, _, process_reused cfg _ junk events in1 in2 st st1 flag hloop hcond,
      hv1, hb1, hlook _ hv1 hb1⟩

end Claims2

theorem wellFormed_example : ∀ ev ∈ ([[0xB1, 7, 5]] : List (List Byte)), WellFormed ev := by
  intro ev hev
  simp only [List.mem_singleton] at hev
  subst hev
  exact ⟨by decide, by decide, by decide⟩

theorem tolerated_example :
    ∀ ev ∈ ([[0xB0, 7, 100], [0xC0, 5], [0xB0, 8, 0]] : List (List Byte)),
      Tolerated (defaultConfig : Config ℝ) ev := by
  intro ev hev
  simp only [List.mem_cons, List.mem_singleton, List.not_mem_nil, or_false] at hev
  rcases hev with h | h | h <;> subst h
  · exact ⟨by decide, Or.inl ⟨by decide, by decide⟩⟩
  · exact ⟨by decide, Or.inr (Or.inl ⟨by decide, by decide⟩)⟩
  · exact ⟨by decide, Or.inl ⟨by decide, by decide⟩⟩

/-- Witness for C5 (amended): volume 100, a two-byte Program-Change, then balance 0, from
axis values 127 and 64. -/
theorem axis_values_stay_in_table_witness :
    (127 ≤ 127 ∧ 64 ≤ 127 ∧
      ∀ ev ∈ ([[0xB0, 7, 100], [0xC0, 5], [0xB0, 8, 0]] : List (List Byte)),
        Tolerated (defaultConfig : Config ℝ) ev) ∧
    ∃ (st1 : Engine ℝ) (out1 out2 : List (Dbl ℝ)),
      process defaultConfig (startupTables (fun x y : ℝ => x ^ y)) (fun _ _ => 0)
        [[0xB0, 7, 100], [0xC0, 5], [0xB0, 8, 0]] [] []
        { factorL := Dbl.fin 1, factorR := Dbl.fin 1, balanceStep := 64, volumeStep := 127 } =
          some (st1, out1, out2) ∧
      st1.volumeStep ≤ 127 ∧ st1.balanceStep ≤ 127 ∧
      ((startupTables (fun x y : ℝ => x ^ y)).volumeFcts[st1.volumeStep]?).isSome = true ∧
      ((startupTables (fun x y : ℝ => x ^ y)).balanceFctsL[st1.balanceStep]?).isSome = true ∧
      ((startupTables (fun x y : ℝ => x ^ y)).balanceFctsR[st1.balanceStep]?).isSome = true :=
  ⟨⟨le_rfl, by decide, tolerated_example⟩,
    axis_values_stay_in_table defaultConfig (fun x y : ℝ => x ^ y) (fun _ _ => 0)
      [[0xB0, 7, 100], [0xC0, 5], [0xB0, 8, 0]] [] []
      { factorL := Dbl.fin 1, factorR := Dbl.fin 1, balanceStep := 64, volumeStep := 127 }
      le_rfl (by decide) tolerated_example⟩

section Claims3

variable {α : Type}

/-- C6, as stated, fails: the code has no size check. The two-byte message `B0 07` is a
Control-Change status on the listening channel with the volume controller number; it
sets the flag and loads `volumeStep` from the uninitialised third byte of `buffer`. A
message of 4097 bytes is copied past the end of `buffer`, so the call has no defined
result. -/
theorem short_message_not_dropped :
    ([0xB0, 7] : List Byte).length < 3 ∧
    (∀ junk : Nat → Byte,
      handleEvent (defaultConfig : Config ℚ) junk [0xB0, 7]
          (
              { factorL := Dbl.fin 1, factorR := Dbl.fin 1,
                balanceStep := 64, volumeStep := 127 }, false) =
        some (
            { factorL := Dbl.fin 1, factorR := Dbl.fin 1,
              balanceStep := 64, volumeStep := (junk 2).val },
          true)) ∧
    4096 < (List.replicate 4097 (0 : Byte)).length ∧
    (∀ (junk : Nat → Byte) (s : Engine ℚ × Bool),
      handleEvent (defaultConfig : Config ℚ) junk (List.replicate 4097 0) s = none) :=
  ⟨by decide, fun junk =>
    handleEvent_volume _ junk _ _ (by decide)
      (by rw [bufferByte_of_lt junk _ 0 (by decide)]; decide)
      (by rw [bufferByte_of_lt junk _ 0 (by decide)]; decide)
      (by rw [bufferByte_of_lt junk _ 1 (by decide)]; decide),
    by rw [List.length_replicate]; omega,
    fun junk s => handleEvent_oversized _ junk _ s (by rw [List.length_replicate]; omega)⟩

/-- C6, amended. A message of fewer than 3 bytes leaves the axis values, the factors and
the flag as they were when its status byte is present and is not a Control-Change on the
listening channel, or its controller byte is present and is neither the volume nor the
balance controller number. -/
theorem short_message_without_control_ignored (cfg : Config α) (junk : Nat → Byte)
    (ev : List Byte) (s : Engine α × Bool) (hlen : ev.length < 3)
    (h : (∃ b0 : Byte, ev[0]? = some b0 ∧
            ¬ (b0.val &&& 0xf0 = 0xb0 ∧ b0.val &&& 0xf = cfg.CHANNEL)) ∨
         (∃ b1 : Byte, ev[1]? = some b1 ∧
            b1.val ≠ cfg.VOLCONTROL ∧ b1.val ≠ cfg.BALCONTROL)) :
    handleEvent cfg junk ev s = some s := by
  apply handleEvent_ignored cfg junk ev s (by omega)
  rintro ⟨ht, hc, hn⟩
  rcases h with ⟨b0, hb0, hnot⟩ | ⟨b1, hb1, hv, hb⟩
  · rw [bufferByte_of_lookup junk ev 0 b0 hb0] at ht hc
    exact hnot ⟨ht, hc⟩
  · rw [bufferByte_of_lookup junk ev 1 b1 hb1] at hn
    rcases hn with hn | hn
    · exact hv hn
    · exact hb hn

/-- Witness for C6 (amended): the two-byte Program-Change `C0 05`. -/
theorem short_message_without_control_ignored_witness :
    (([0xC0, 5] : List Byte).length < 3 ∧
      ((∃ b0 : Byte, ([0xC0, 5] : List Byte)[0]? = some b0 ∧
            ¬ (b0.val &&& 0xf0 = 0xb0 ∧ b0.val &&& 0xf = (defaultConfig : Config ℚ).CHANNEL)) ∨
         (∃ b1 : Byte, ([0xC0, 5] : List Byte)[1]? = some b1 ∧
            b1.val ≠ (defaultConfig : Config ℚ).VOLCONTROL ∧
            b1.val ≠ (defaultConfig : Config ℚ).BALCONTROL))) ∧
    handleEvent (defaultConfig : Config ℚ) (fun _ => 0) [0xC0, 5]
        (
            { factorL := Dbl.fin 1, factorR := Dbl.fin 1,
              balanceStep := 64, volumeStep := 127 }, false) =
      some (
          { factorL := Dbl.fin 1, factorR := Dbl.fin 1,
            balanceStep := 64, volumeStep := 127 }, false) :=
  ⟨⟨by decide, Or.inl ⟨0xC0, rfl, by decide⟩⟩,
    short_message_without_control_ignored (defaultConfig : Config ℚ) (fun _ => 0) [0xC0, 5]
      ({ factorL := Dbl.fin 1, factorR := Dbl.fin 1, balanceStep := 64, volumeStep := 127 }, false)
      (by decide) (Or.inl ⟨0xC0, rfl, by decide⟩)⟩

end Claims3

section Claims4

variable {α : Type} [LinearOrderedField α]

/-- C7, as stated, fails at the sentinel: with `factorL = -1.0` a Control-Change on
channel 1 (the listening channel is 0) still triggers the first-run recompute, and the
factors go from `(-1, -1)` to `(1024191/1024192, 1)`. -/
theorem foreign_channel_recomputes_at_sentinel :
    process (defaultConfig : Config ℝ) (startupTables (fun x y : ℝ => x ^ y)) (fun _ _ => 0)
        [[0xB1, 7, 0]] [] []
        { factorL := Dbl.fin (-1.0), factorR := Dbl.fin (-1.0),
          balanceStep := 64, volumeStep := 127 } =
      some (
          { factorL := Dbl.fin (1024191 / 1024192), factorR := Dbl.fin 1,
            balanceStep := 64, volumeStep := 127 },
        [], []) ∧
    (Dbl.fin (1024191 / 1024192) : Dbl ℝ) ≠ Dbl.fin (-1.0) ∧
    (Dbl.fin 1 : Dbl ℝ) ≠ Dbl.fin (-1.0) := by
  have hloop : midiLoop (defaultConfig : Config ℝ) (fun _ _ => 0) 0 [[0xB1, 7, 0]]
        (
            { factorL := Dbl.fin (-1.0), factorR := Dbl.fin (-1.0),
              balanceStep := 64, volumeStep := 127 }, false) =
      some (
          { factorL := Dbl.fin (-1.0), factorR := Dbl.fin (-1.0),
            balanceStep := 64, volumeStep := 127 }, false) :=
    midiLoop_single _ _ _ _ _ (handleEvent_ignored _ _ _ _ (by decide) (by decide))
  refine ⟨?_, fun h => by have := Dbl.fin.inj h; norm_num at this,
    fun h => by have := Dbl.fin.inj h; norm_num at this⟩
  rw [process_in_table _ _ _ _ _ _ _ _ _ hloop (Or.inr rfl) le_rfl (by decide)]
  simp only [volumeFct_real_top, balanceFctL_centre, balanceFctR_centre, defaultConfig,
    List.map_nil, Dbl.fin_mul_fin]
  norm_num

/-- C7, amended. When the state is not at the sentinel (`factorL ≠ -1.0`), a block whose
only message is a 3-byte Control-Change on another channel, or with a controller number
that is neither the volume nor the balance controller, leaves the whole state, and so
both factors, as before; the outputs are the inputs scaled by those factors. -/
theorem unrecognised_control_keeps_factors (cfg : Config α) (tbl : Tables α)
    (junk : Nat → Nat → Byte) (s c v : Byte) (in1 in2 : List (Dbl α)) (st : Engine α)
    (hun : s.val &&& 0xf ≠ cfg.CHANNEL ∨ (c.val ≠ cfg.VOLCONTROL ∧ c.val ≠ cfg.BALCONTROL))
    (hsent : st.factorL ≠ Dbl.fin (-1.0)) :
    process cfg tbl junk [[s, c, v]] in1 in2 st =
      some (st, in1.map (fun x => st.factorL * x), in2.map (fun x => st.factorR * x)) := by
  obtain ⟨e0, e1, _⟩ := bufferByte_three (junk 0) s c v
  have hloop : midiLoop cfg junk 0 [[s, c, v]] (st, false) = some (st, false) := by
    apply midiLoop_single
    apply handleEvent_ignored cfg (junk 0) [s, c, v] (st, false) (by simp)
    rw [e0, e1]
    rintro ⟨_, hc, hn⟩
    rcases hun with h | ⟨h1, h2⟩
    · exact h hc
    · rcases hn with hn | hn
      · exact h1 hn
      · exact h2 hn
  exact process_reused cfg tbl junk _ in1 in2 st st false hloop
    (by rintro (h | h); exact Bool.noConfusion h; exact hsent h)

end Claims4

theorem one_ne_sentinel : (Dbl.fin 1 : Dbl ℝ) ≠ Dbl.fin (-1.0) := by
  intro h
  have := Dbl.fin.inj h
  norm_num at this

theorem centre_ne_sentinel : (Dbl.fin (1024191 / 1024192) : Dbl ℝ) ≠ Dbl.fin (-1.0) := by
  intro h
  have := Dbl.fin.inj h
  norm_num at this

/-- Witness for C7 (amended): a volume controller message on channel 1 while the state
holds the factors `(1, 1)`. -/
theorem unrecognised_control_keeps_factors_witness :
    (((0xB1 : Byte).val &&& 0xf ≠ (defaultConfig : Config ℝ).CHANNEL ∨
        ((7 : Byte).val ≠ (defaultConfig : Config ℝ).VOLCONTROL ∧
          (7 : Byte).val ≠ (defaultConfig : Config ℝ).BALCONTROL)) ∧
      (Dbl.fin 1 : Dbl ℝ) ≠ Dbl.fin (-1.0)) ∧
    process (defaultConfig : Config ℝ) (startupTables (fun x y : ℝ => x ^ y)) (fun _ _ => 0)
        [[0xB1, 7, 5]] [Dbl.fin 1, Dbl.fin 2] [Dbl.fin 3]
        { factorL := Dbl.fin 1, factorR := Dbl.fin 1, balanceStep := 64, volumeStep := 127 } =
      some ({ factorL := Dbl.fin 1, factorR := Dbl.fin 1, balanceStep := 64, volumeStep := 127 },
        [Dbl.fin 1, Dbl.fin 2].map (fun x => Dbl.fin 1 * x),
        [Dbl.fin 3].map (fun x => Dbl.fin 1 * x)) :=
  ⟨⟨Or.inl (by decide), one_ne_sentinel⟩,
    unrecognised_control_keeps_factors (defaultConfig : Config ℝ) _ (fun _ _ => 0) 0xB1 7 5
      [Dbl.fin 1, Dbl.fin 2] [Dbl.fin 3]
      { factorL := Dbl.fin 1, factorR := Dbl.fin 1, balanceStep := 64, volumeStep := 127 }
      (Or.inl (by decide)) one_ne_sentinel⟩

/-- C8. From a state with axis values in `0..127` whose factors are at the sentinel
(`factorL = -1.0`) or agree with the tables at its axis values, a block of well-formed
messages (3 to 4096 bytes, value byte in `0..127`) makes `process` return a state whose
axis values are in `0..127` and whose factors are
`volumeFcts[v] * balanceFctsL[b] * GAIN` and `volumeFcts[v] * balanceFctsR[b] * GAIN` at
the new axis values `v`, `b`; when no recognised Control-Change is in the block and the
state was not at the sentinel, the state and its factors are exactly the previous ones.
The sign of `GAIN` is not needed. -/
theorem factors_never_stale {α : Type} [LinearOrderedField α] (cfg : Config α)
    (pow : α → α → α) (junk : Nat → Nat → Byte) (events : List (List Byte))
    (in1 in2 : List (Dbl α)) (st : Engine α)
    (hv : st.volumeStep ≤ 127) (hb : st.balanceStep ≤ 127)
    (hst : st.factorL = Dbl.fin (-1.0) ∨ FactorsMatch cfg (startupTables pow) st)
    (hev : ∀ ev ∈ events, WellFormed ev) :
    ∃ st1 : Engine α,
      process cfg (startupTables pow) junk events in1 in2 st =
        some (st1, in1.map (fun x => st1.factorL * x), in2.map (fun x => st1.factorR * x)) ∧
      st1.volumeStep ≤ 127 ∧ st1.balanceStep ≤ 127 ∧
      FactorsMatch cfg (startupTables pow) st1 ∧
      ((∀ ev ∈ events, ¬ Recognised cfg ev) → st.factorL ≠ Dbl.fin (-1.0) →
        st1.factorL = st.factorL ∧ st1.factorR = st.factorR ∧ st1 = st) := by
  obtain ⟨st1, hp, hv1, hb1, hm, hsame⟩ :=
    process_wellFormed cfg pow junk events in1 in2 st hv hb hev
  refine ⟨st1, hp, hv1, hb1, hm hst, fun hnone hsent => ?_⟩
  have e := hsame hnone hsent
  exact ⟨by rw [e], by rw [e], e⟩

theorem factorsMatch_centre :
    FactorsMatch (defaultConfig : Config ℝ) (startupTables (fun x y : ℝ => x ^ y))
      { factorL := Dbl.fin (1024191 / 1024192), factorR := Dbl.fin 1,
        balanceStep := 64, volumeStep := 127 } := by
  refine ⟨1, 1024191 / 1024192, 1, ?_, ?_, ?_, ?_, ?_⟩
  · show (volumeFcts (fun x y : ℝ => x ^ y))[127]? = some 1
    rw [volumeFcts_lookup _ 127 le_rfl, volumeFct_real_top]
  · show (balanceFctsL : List ℝ)[64]? = some (1024191 / 1024192)
    rw [balanceFctsL_lookup 64 (by omega), balanceFctL_centre]
  · show (balanceFctsR : List ℝ)[64]? = some 1
    rw [balanceFctsR_lookup 64 (by omega), balanceFctR_centre]
  · simp only [defaultConfig, Dbl.fin_mul_fin]; norm_num
  · simp only [defaultConfig, Dbl.fin_mul_fin]; norm_num

/-- Witness for C8: a state whose factors agree with the tables at volume 127 and balance
64, and a block holding one Control-Change on channel 1. -/
theorem factors_never_stale_witness :
    ((127 ≤ 127 ∧ 64 ≤ 127) ∧
      ((Dbl.fin (1024191 / 1024192) : Dbl ℝ) = Dbl.fin (-1.0) ∨
        FactorsMatch (defaultConfig : Config ℝ) (startupTables (fun x y : ℝ => x ^ y))
          { factorL := Dbl.fin (1024191 / 1024192), factorR := Dbl.fin 1,
            balanceStep := 64, volumeStep := 127 }) ∧
      ∀ ev ∈ ([[0xB1, 7, 5]] : List (List Byte)), WellFormed ev) ∧
    ∃ st1 : Engine ℝ,
      process (defaultConfig : Config ℝ) (startupTables (fun x y : ℝ => x ^ y)) (fun _ _ => 0)
          [[0xB1, 7, 5]] [Dbl.fin 1, Dbl.fin 1] [Dbl.fin 1, Dbl.fin 1]
          { factorL := Dbl.fin (1024191 / 1024192), factorR := Dbl.fin 1,
            balanceStep := 64, volumeStep := 127 } =
        some (st1, [Dbl.fin 1, Dbl.fin 1].map (fun x => st1.factorL * x),
          [Dbl.fin 1, Dbl.fin 1].map (fun x => st1.factorR * x)) ∧
      st1.volumeStep ≤ 127 ∧ st1.balanceStep ≤ 127 ∧
      FactorsMatch (defaultConfig : Config ℝ) (startupTables (fun x y : ℝ => x ^ y)) st1 ∧
      ((∀ ev ∈ ([[0xB1, 7, 5]] : List (List Byte)),
          ¬ Recognised (defaultConfig : Config ℝ) ev) →
        (Dbl.fin (1024191 / 1024192) : Dbl ℝ) ≠ Dbl.fin (-1.0) →
        st1.factorL = Dbl.fin (1024191 / 1024192) ∧ st1.factorR = Dbl.fin 1 ∧
          st1 =
            { factorL := Dbl.fin (1024191 / 1024192), factorR := Dbl.fin 1,
              balanceStep := 64, volumeStep := 127 }) :=
  ⟨⟨⟨le_rfl, by decide⟩, Or.inr factorsMatch_centre, wellFormed_example⟩,
    factors_never_stale (defaultConfig : Config ℝ) (fun x y : ℝ => x ^ y) (fun _ _ => 0)
      [[0xB1, 7, 5]] [Dbl.fin 1, Dbl.fin 1] [Dbl.fin 1, Dbl.fin 1]
      { factorL := Dbl.fin (1024191 / 1024192), factorR := Dbl.fin 1,
        balanceStep := 64, volumeStep := 127 }
      le_rfl (by decide) (Or.inr factorsMatch_centre) wellFormed_example⟩

theorem midiLoop_volume_127 (junk : Nat → Nat → Byte) :
    midiLoop (defaultConfig : Config ℝ) junk 0 [[0xB0, 7, 127]] (initialEngine, false) =
      some (
          { factorL := Dbl.fin (-1.0), factorR := Dbl.fin (-1.0),
            balanceStep := 64, volumeStep := 127 }, true) :=
  midiLoop_single _ _ _ _ _
    (handleEvent_volume _ _ _ _ (by decide)
      (by rw [bufferByte_of_lt _ _ 0 (by decide)]; decide)
      (by rw [bufferByte_of_lt _ _ 0 (by decide)]; decide)
      (by rw [bufferByte_of_lt _ _ 1 (by decide)]; decide))

/-- C9, as stated, fails: with the default settings and the startup tables, after
Control-Change(channel 0, controller 7, value 127) from the initial state, the input
`[1.0, 1.0]` on the first channel comes out as `[1024191/1024192, 1024191/1024192]`,
which is not `[1.0, 1.0]`; `factorL` is `1024191/1024192`. -/
theorem default_centre_output_below_unity :
    process (defaultConfig : Config ℝ) (startupTables (fun x y : ℝ => x ^ y)) (fun _ _ => 0)
        [[0xB0, 7, 127]] [Dbl.fin 1.0, Dbl.fin 1.0] [Dbl.fin 1.0, Dbl.fin 1.0] initialEngine =
      some (
          { factorL := Dbl.fin (1024191 / 1024192), factorR := Dbl.fin 1,
            balanceStep := 64, volumeStep := 127 },
        [Dbl.fin (1024191 / 1024192), Dbl.fin (1024191 / 1024192)], [Dbl.fin 1, Dbl.fin 1]) ∧
    ([Dbl.fin (1024191 / 1024192), Dbl.fin (1024191 / 1024192)] : List (Dbl ℝ)) ≠
      [Dbl.fin 1.0, Dbl.fin 1.0] := by
  constructor
  · rw [process_in_table _ _ _ _ _ _ _ _ _ (midiLoop_volume_127 _) (Or.inl rfl) le_rfl
      (by decide)]
    simp only [volumeFct_real_top, balanceFctL_centre, balanceFctR_centre, defaultConfig,
      List.map_cons, List.map_nil, Dbl.fin_mul_fin]
    norm_num
  · intro h
    have h1 := Dbl.fin.inj (List.cons.inj h).1
    norm_num at h1

/-- C9, amended. With the default settings and the startup tables over the reals, after
Control-Change(channel 0, controller 7, value 127) from the initial state, `factorL` is
`1024191/1024192` and `factorR` is 1: the first-channel input `[1.0, 1.0]` gives the
output `[1024191/1024192, 1024191/1024192]` (`out1[n] = factorL * in1[n]`), and the
second channel is passed through unchanged. -/
theorem default_centre_output (junk : Nat → Nat → Byte) (in2 : List (Dbl ℝ)) :
    process (defaultConfig : Config ℝ) (startupTables (fun x y : ℝ => x ^ y)) junk
        [[0xB0, 7, 127]] [Dbl.fin 1.0, Dbl.fin 1.0] in2 initialEngine =
      some (
          { factorL := Dbl.fin (1024191 / 1024192), factorR := Dbl.fin 1,
            balanceStep := 64, volumeStep := 127 },
        [Dbl.fin (1024191 / 1024192 * 1.0), Dbl.fin (1024191 / 1024192 * 1.0)], in2) := by
  rw [process_in_table _ _ _ _ _ _ _ _ _ (midiLoop_volume_127 junk) (Or.inl rfl) le_rfl
    (by decide)]
  simp only [volumeFct_real_top, balanceFctL_centre, balanceFctR_centre, defaultConfig,
    List.map_cons, List.map_nil, Dbl.fin_mul_fin]
  norm_num
  exact Dbl.map_one_mul in2

/-- C10, as stated, fails for the gain `+inf`, which `main` accepts (`-g inf` passes the
test `castResult >= 0.0`): from volume 127, where the factors are `(+inf, +inf)`, the
Control-Change(channel 0, controller 8, value 0) gives `factorR = 1 * 0 * inf`, which is
NaN and not 0.0. -/
theorem infinite_gain_full_left_not_zero :
    gainAccepted (Dbl.posInf : Dbl ℝ) = true ∧
    process ({ CHANNEL := 0, VOLCONTROL := 7, BALCONTROL := 8, GAIN := Dbl.posInf } : Config ℝ)
        (startupTables (fun x y : ℝ => x ^ y)) (fun _ _ => 0) [[0xB0, 8, 0]] [] []
        { factorL := Dbl.posInf, factorR := Dbl.posInf, balanceStep := 64, volumeStep := 127 } =
      some ({ factorL := Dbl.posInf, factorR := Dbl.nan, balanceStep := 0, volumeStep := 127 },
        [], []) ∧
    (Dbl.nan : Dbl ℝ) ≠ Dbl.fin 0.0 := by
  have hloop : midiLoop ({ CHANNEL := 0, VOLCONTROL := 7, BALCONTROL := 8, GAIN := Dbl.posInf } :
        Config ℝ) (fun _ _ => 0) 0 [[0xB0, 8, 0]]
        ({ factorL := Dbl.posInf, factorR := Dbl.posInf, balanceStep := 64, volumeStep := 127 },
          false) =
      some ({ factorL := Dbl.posInf, factorR := Dbl.posInf, balanceStep := 0, volumeStep := 127 },
        true) :=
    midiLoop_single _ _ _ _ _
      (handleEvent_balance _ _ _ _ (by decide) (by decide) (by decide) (by decide) (by decide))
  refine ⟨rfl, ?_, fun h => Dbl.noConfusion h⟩
  rw [process_in_table _ (fun x y : ℝ => x ^ y) _ _ _ _ _ _ _ hloop (Or.inl rfl) le_rfl (by decide)]
  simp only [volumeFct_real_top, balanceFctL_zero, balanceFctR_zero, List.map_nil,
    Dbl.fin_mul_fin, mul_one, mul_zero, Dbl.zero_mul_posInf, Dbl.one_mul]

/-- C10, amended. Whenever the balance controller number differs from the volume
controller number, the gain is finite and the volume axis value `v` is in `0..127`, a
block whose only message is Control-Change(listening channel, balance controller,
value 0) makes `process` return with `factorR = 0` and `factorL = volumeFcts[v] * GAIN`,
for every previous balance value and factors. The sign of the gain is not needed. -/
theorem full_left_balance {α : Type} [LinearOrderedField α] (cfg : Config α)
    (pow : α → α → α) (junk : Nat → Nat → Byte) (s c : Byte) (in1 in2 : List (Dbl α))
    (st : Engine α) (g : α)
    (hne : cfg.BALCONTROL ≠ cfg.VOLCONTROL) (hg : cfg.GAIN = Dbl.fin g)
    (hv : st.volumeStep ≤ 127)
    (hs : s.val &&& 0xf0 = 0xb0) (hch : s.val &&& 0xf = cfg.CHANNEL)
    (hc : c.val = cfg.BALCONTROL) :
    ∃ (v : α) (st1 : Engine α) (out1 out2 : List (Dbl α)),
      (startupTables pow).volumeFcts[st.volumeStep]? = some v ∧
      process cfg (startupTables pow) junk [[s, c, 0]] in1 in2 st = some (st1, out1, out2) ∧
      st1.factorR = Dbl.fin 0 ∧ st1.factorL = Dbl.fin (v * g) ∧
      st1.volumeStep = st.volumeStep ∧ st1.balanceStep = 0 := by
  obtain ⟨e0, e1, e2⟩ := bufferByte_three (junk 0) s c 0
  have hloop : midiLoop cfg junk 0 [[s, c, 0]] (st, false) =
      some ({ st with balanceStep := 0 }, true) := by
    apply midiLoop_single
    rw [handleEvent_balance cfg (junk 0) [s, c, 0] (st, false) (by simp) (by rw [e0]; exact hs)
      (by rw [e0]; exact hch) (by rw [e1, hc]; exact hne) (by rw [e1]; exact hc), e2]
    rfl
  refine ⟨volumeFct pow st.volumeStep, _, _, _, volumeFcts_lookup pow _ hv,
    process_in_table cfg pow junk _ in1 in2 st _ true hloop (Or.inl rfl) hv (Nat.zero_le _),
    ?_, ?_, rfl, rfl⟩
  · show Dbl.fin (volumeFct pow st.volumeStep) * Dbl.fin (balanceFctR 0) * cfg.GAIN = Dbl.fin 0
    rw [hg, balanceFctR_zero, Dbl.fin_mul_fin, Dbl.fin_mul_fin]
    congr 1
    ring
  · show Dbl.fin (volumeFct pow st.volumeStep) * Dbl.fin (balanceFctL 0) * cfg.GAIN =
      Dbl.fin (volumeFct pow st.volumeStep * g)
    rw [hg, balanceFctL_zero, Dbl.fin_mul_fin, Dbl.fin_mul_fin]
    congr 1
    ring

/-- Witness for C10 (amended): the default settings with gain 1, volume at 127, balance at
64. -/
theorem full_left_balance_witness :
    ((defaultConfig : Config ℝ).BALCONTROL ≠ (defaultConfig : Config ℝ).VOLCONTROL ∧
      (defaultConfig : Config ℝ).GAIN = Dbl.fin 1.0 ∧
      127 ≤ 127 ∧ (0xB0 : Byte).val &&& 0xf0 = 0xb0 ∧
      (0xB0 : Byte).val &&& 0xf = (defaultConfig : Config ℝ).CHANNEL ∧
      (8 : Byte).val = (defaultConfig : Config ℝ).BALCONTROL) ∧
    ∃ (v : ℝ) (st1 : Engine ℝ) (out1 out2 : List (Dbl ℝ)),
      (startupTables (fun x y : ℝ => x ^ y)).volumeFcts[127]? = some v ∧
      process (defaultConfig : Config ℝ) (startupTables (fun x y : ℝ => x ^ y)) (fun _ _ => 0)
          [[0xB0, 8, 0]] [Dbl.fin 1, Dbl.fin 1] [Dbl.fin 1, Dbl.fin 1]
          { factorL := Dbl.fin 1, factorR := Dbl.fin 1, balanceStep := 64, volumeStep := 127 } =
        some (st1, out1, out2) ∧
      st1.factorR = Dbl.fin 0 ∧ st1.factorL = Dbl.fin (v * 1.0) ∧
      st1.volumeStep = 127 ∧ st1.balanceStep = 0 :=
  ⟨⟨by decide, rfl, le_rfl, by decide, by decide, by decide⟩,
    full_left_balance (defaultConfig : Config ℝ) (fun x y : ℝ => x ^ y) (fun _ _ => 0)
      0xB0 8 [Dbl.fin 1, Dbl.fin 1] [Dbl.fin 1, Dbl.fin 1]
      { factorL := Dbl.fin 1, factorR := Dbl.fin 1, balanceStep := 64, volumeStep := 127 } 1.0
      (by decide) rfl le_rfl (by decide) (by decide) (by decide)⟩

end JackBalancer
